import Mathlib

set_option maxRecDepth 8000

/-! Shallow embedding of `src/kernel/client.c`: the mount bootstrap, readiness
tracking, message dispatch, root-open and client-counter logic of a distributed
filesystem client.  In-place mutation of `struct ceph_client` becomes explicit
state passing; external collaborators (map decoding, subsystem handlers, the
transport, the RPC layer) are parameters supplied through environment records.
Kernel error returns are negative `Int` values (EINTR = 4, EIO = 5,
ENOMEM = 12, EINVAL = 22, as on the source's target platform). -/

/-- Linux `set_bit(nr, addr)`: set bit `num` of the word `w`. -/
def set_bit (num : Nat) (w : Nat) : Nat := w ||| 2 ^ num

/-- Linux `find_first_zero_bit(addr, size)`: index of the lowest clear bit
among the low `size` bits of `w`, or `size` when they are all set. -/
def find_first_zero_bit (w : Nat) (size : Nat) : Nat :=
  ((List.range size).find? (fun i => ! w.testBit i)).getD size

/-- A monitor map (`struct ceph_monmap`): a versioned cluster map.
Epoch 0 means "never received"; the payload is opaque to `client.c`. -/
structure MonMap where
  epoch : Nat
  payload : List Nat
  deriving Repr, DecidableEq

/-- The message type tags that the dispatch switch in `client.c` names,
plus `other` for every tag that falls to the `default:` arm. -/
inductive CephMsgType where
  | mon_map
  | statfs_reply
  | mds_map
  | client_session
  | client_reply
  | client_request_forward
  | client_filecaps
  | osd_map
  | osd_opreply
  | other (tag : Nat)
  deriving Repr, DecidableEq

/-- An inbound message (`struct ceph_msg`): its type tag, its front payload
bytes (fed to the monmap decoder), and `hdr.dst.name` as an
(entity-type, entity-num) pair. -/
structure CephMsg where
  type : CephMsgType
  front : List Nat
  dstName : Nat × Nat
  deriving Repr, DecidableEq

/-- The fields of `struct ceph_client` that `client.c` reads or writes:
the stored monitor map (`monc.monmap`), presence of the metadata map
(`mdsc.mdsmap != NULL`) and of the storage map (`osdc.osdmap != NULL`),
the `mounting` readiness bitmask, the client identity `whoami`, the
transport self-identity `msgr->inst.name`, and the number of `complete`
calls issued on `mount_completion` (modelling the one-shot signal). -/
structure ClientState where
  monmap : MonMap
  mdsmapPresent : Bool
  osdmapPresent : Bool
  mounting : Nat
  whoami : Int
  msgrName : Nat × Nat
  completions : Nat
  deriving Repr, DecidableEq

/-- A freshly created client, as set up by `ceph_create_client`:
`kzalloc` zeroes the state, `ceph_monc_init` leaves the monitor map at
epoch 0, `whoami = -1`, `mounting = 0`. -/
def initClient : ClientState :=
  { monmap := { epoch := 0, payload := [] }
    mdsmapPresent := false
    osdmapPresent := false
    mounting := 0
    whoami := -1
    msgrName := (0, 0)
    completions := 0 }

/-- `got_first_map`: set readiness bit `num` in `client->mounting`; if the
first zero bit of the low four bits is bit 3 (i.e. bits 0,1,2 are all set
and bit 3 is clear) fire the mount completion. -/
def got_first_map (client : ClientState) (num : Nat) : ClientState :=
  let m := set_bit num client.mounting
  if find_first_zero_bit m 4 = 3 then
    { client with mounting := m, completions := client.completions + 1 }
  else
    { client with mounting := m }

/-- External collaborators of the dispatch path.  `monmap_decode` models
`ceph_monmap_decode` (`none` = `IS_ERR`); `mdsc_handle_map` and
`osdc_handle_map` model the effect of `ceph_mdsc_handle_map` /
`ceph_osdc_handle_map` on the presence of the respective map pointer
(old presence and message in, new presence out).  The remaining handlers
act only on subsystem-internal state that `client.c` never reads. -/
structure DispatchEnv where
  monmap_decode : List Nat → Option MonMap
  mdsc_handle_map : Bool → CephMsg → Bool
  osdc_handle_map : Bool → CephMsg → Bool

/-- `handle_monmap`: remember whether the stored map had epoch 0, decode the
announcement; on decode failure log and return with the state untouched;
on success replace the stored map, and if this was the first map ever
received adopt the identity carried in `hdr.dst.name` (`whoami` and the
transport self-identity). -/
def handle_monmap (env : DispatchEnv) (client : ClientState) (msg : CephMsg) :
    ClientState :=
  let first := client.monmap.epoch == 0
  match env.monmap_decode msg.front with
  | none => client
  | some nm =>
    let c1 := { client with monmap := nm }
    if first then
      { c1 with whoami := (msg.dstName.2 : Int), msgrName := msg.dstName }
    else c1

/-- `ceph_dispatch`: route the message by type tag; for the three map
announcement types record presence before and after the handler and call
`got_first_map` on a became-present edge; unknown tags only log.  The
second component counts `ceph_msg_put` calls (the single release after
the switch). -/
def ceph_dispatch (env : DispatchEnv) (client : ClientState) (msg : CephMsg) :
    ClientState × Nat :=
  let c :=
    match msg.type with
    | .mon_map =>
      let had := client.monmap.epoch != 0
      let c1 := handle_monmap env client msg
      if !had && (c1.monmap.epoch != 0) then got_first_map c1 0 else c1
    | .statfs_reply => client
    | .mds_map =>
      let had := client.mdsmapPresent
      let c1 := { client with
                  mdsmapPresent := env.mdsc_handle_map client.mdsmapPresent msg }
      if !had && c1.mdsmapPresent then got_first_map c1 1 else c1
    | .client_session => client
    | .client_reply => client
    | .client_request_forward => client
    | .client_filecaps => client
    | .osd_map =>
      let had := client.osdmapPresent
      let c1 := { client with
                  osdmapPresent := env.osdc_handle_map client.osdmapPresent msg }
      if !had && c1.osdmapPresent then got_first_map c1 2 else c1
    | .osd_opreply => client
    | .other _ => client
  (c, 1)

/-- The message type carrying subsystem `k`'s map announcement:
0 = monitor, 1 = metadata, 2 = storage (the bit numbers of `mounting`). -/
def mapMsgType : Fin 3 → CephMsgType
  | 0 => .mon_map
  | 1 => .mds_map
  | 2 => .osd_map

/-- Whether subsystem `k`'s map is locally present: monitor map present
means epoch nonzero, the other two mean a non-NULL map pointer. -/
def mapPresent (c : ClientState) : Fin 3 → Bool
  | 0 => c.monmap.epoch != 0
  | 1 => c.mdsmapPresent
  | 2 => c.osdmapPresent

/-- A sequence of `got_first_map` calls, in order. -/
def runFirstMaps (c : ClientState) (nums : List Nat) : ClientState :=
  nums.foldl got_first_map c

/-- Environment of `ceph_mount`: the signed `char` drawn by
`get_random_bytes` at attempt `i` (a value in [-128, 127] on the source's
target platform), whether `wait_for_completion_timeout` returned `-EINTR`
at attempt `i`, whether `ceph_msg_new` failed at attempt `i` (and with
which code), and the value of `client->mounting` at its `t`-th read
inside the loop (reads 2*i and 2*i+1 belong to attempt `i`: the `while`
test and the post-wait test). -/
structure MountEnv where
  randByte : Nat → Int
  waitInterrupted : Nat → Bool
  msgNewErr : Nat → Option Int
  mountingRead : Nat → Nat

/-- Outcome of the mount attempt loop: fall through to `open_root_inode`,
or an early `return` with an error code. -/
inductive MountOutcome where
  | proceed
  | errRet (code : Int)
  deriving Repr, DecidableEq

/-- The C `%` on a signed `char`: truncated remainder. -/
def cMod (r : Int) (n : Nat) : Int := Int.tmod r (n : Int)

/-- The signed value of the random byte `b` (0..255) when stored into the
C `char r` of `ceph_mount` on the source's target platform. -/
def signedOfByte (b : Nat) : Int := if b < 128 then (b : Int) else (b : Int) - 256

/-- `which = r % args->num_mon`: the monitor index `ceph_mount` computes
from the random byte `b`. -/
def pickMonitor (b : Nat) (num_mon : Nat) : Int := cMod (signedOfByte b) num_mon

/-- The attempt loop of `ceph_mount`.  Each iteration: test
`client->mounting < 7`; draw a random byte and compute
`which = r % num_mon`; create the mount message (early return on
allocation failure); send it (recorded by appending `which` to `sent`);
wait with timeout, returning on `-EINTR`; break out on
`client->mounting == 7`; otherwise `--attempts`, returning `-EIO` when it
reaches zero.  `attempts = 0` cannot be reached from any positive budget
(the loop stops at one); the C `int` would go negative there and keep
looping, so that arm mirrors the exhausted-budget return. -/
def ceph_mount_loop (env : MountEnv) (num_mon : Nat) (attempts i : Nat)
    (sent : List Int) : List Int × MountOutcome :=
  if env.mountingRead (2 * i) < 7 then
    match env.msgNewErr i with
    | some e => (sent, .errRet e)
    | none =>
      let which := cMod (env.randByte i) num_mon
      let sent' := sent ++ [which]
      if env.waitInterrupted i then (sent', .errRet (-4))
      else if env.mountingRead (2 * i + 1) = 7 then (sent', .proceed)
      else
        match attempts with
        | 0 => (sent', .errRet (-5))
        | 1 => (sent', .errRet (-5))
        | a + 2 => ceph_mount_loop env num_mon (a + 1) (i + 1) sent'
  else (sent, .proceed)
termination_by attempts

/-- The attempt phase of `ceph_mount`, with the attempt budget as a
parameter (the source initialises `int attempts = 10`). -/
def ceph_mount (env : MountEnv) (num_mon : Nat) (attempts : Nat) :
    List Int × MountOutcome :=
  ceph_mount_loop env num_mon attempts 0 []

/-- The source's default attempt budget. -/
def mountAttemptsDefault : Nat := 10

/-- Environment of `open_root_inode`: results of its external calls, in
program order.  `createReqErr` = `IS_ERR(req)` with its `PTR_ERR`;
`doRequestRet` = return of `ceph_mdsc_do_request`; `replyResult` =
`rinfo.head->result`; `traceNr` = `rinfo.trace_nr`; `sbRootExists` =
`client->sb->s_root != NULL` at entry; `getInodeRet` = return of
`ceph_get_inode` (negative = failure);
`dAllocRootOk` = `d_alloc_root` returned non-NULL;
`fillTraceRet` = return of `ceph_fill_trace`, with `fillTraceMnt` telling
whether it set `mnt_inode` non-NULL when it failed (on success it does),
and `fillTraceRootSet` whether it set `*pmnt_root` non-NULL;
`addCapErr` = `IS_ERR(cap)` with its code. -/
structure OpenEnv where
  createReqErr : Option Int
  doRequestRet : Int
  replyResult : Int
  traceNr : Nat
  sbRootExists : Bool
  getInodeRet : Int
  dAllocRootOk : Bool
  fillTraceRet : Int
  fillTraceMnt : Bool
  fillTraceRootSet : Bool
  addCapErr : Option Int
  deriving Repr, DecidableEq

/-- Observable result of `open_root_inode`: the return value, the number
of `ceph_mdsc_put_request` calls, the final value of the local `alloc_fs`
flag, the number of `iput(root_inode)` calls, the number of
`iput(mnt_inode)` calls that acted on a non-NULL inode (`iput(NULL)` is a
no-op), whether `mnt_inode` was ever set non-NULL, and the number of
pinned-mode reference-count increments. -/
structure OpenResult where
  ret : Int
  reqPuts : Nat
  allocFs : Bool
  rootIputs : Nat
  mntIputs : Nat
  mntAllocated : Bool
  pinInc : Nat
  deriving Repr, DecidableEq

/-- The `out2`/`out` epilogue of `open_root_inode` for failures reached
after the root-entry step: `if (alloc_fs) iput(root_inode);
iput(mnt_inode); ceph_mdsc_put_request(req); return err;`. -/
def openRootOut2 (alloc_fs mntSet : Bool) (e : Int) : OpenResult :=
  { ret := e
    reqPuts := 1
    allocFs := alloc_fs
    rootIputs := if alloc_fs then 1 else 0
    mntIputs := if mntSet then 1 else 0
    mntAllocated := mntSet
    pinInc := 0 }

/-- The `out` epilogue of `open_root_inode` for failures taken before any
root-entry or mount-path allocation: `ceph_mdsc_put_request(req);
return err;` (at these points `alloc_fs = 0` and `mnt_inode = NULL`). -/
def openRootOut (e : Int) : OpenResult :=
  { ret := e
    reqPuts := 1
    allocFs := false
    rootIputs := 0
    mntIputs := 0
    mntAllocated := false
    pinInc := 0 }

/-- The tail of `open_root_inode` after the root-entry step (`s_root` is
now set and `alloc_fs` records whether this call allocated it):
`ceph_fill_trace`, the `*pmnt_root` NULL test, `ceph_add_cap`, the
pinned-mode increment, and the success epilogue. -/
def openRootAfterRoot (env : OpenEnv) (alloc_fs : Bool) : OpenResult :=
  if env.fillTraceRet < 0 then
    openRootOut2 alloc_fs env.fillTraceMnt env.fillTraceRet
  else if env.fillTraceRootSet = false then
    openRootOut2 alloc_fs true (-12)
  else
    match env.addCapErr with
    | some e => openRootOut2 alloc_fs true e
    | none =>
      { ret := 0
        reqPuts := 1
        allocFs := alloc_fs
        rootIputs := 0
        mntIputs := 0
        mntAllocated := true
        pinInc := 1 }

/-- `open_root_inode`: create the OPEN request (propagating `IS_ERR`),
issue it — a negative `ceph_mdsc_do_request` return is propagated by a
direct `return err` that bypasses the `out:` epilogue — then check the
reply result, the empty-trace case (`-EINVAL`), allocate or reuse the
filesystem root entry (with `alloc_fs` tracking fresh allocation and a
`d_alloc_root` failure going to `out2` with `-ENOMEM`), and continue with
trace decoding and capability binding. -/
def open_root_inode (env : OpenEnv) : OpenResult :=
  match env.createReqErr with
  | some e =>
    { ret := e, reqPuts := 0, allocFs := false, rootIputs := 0, mntIputs := 0,
      mntAllocated := false, pinInc := 0 }
  | none =>
    if env.doRequestRet < 0 then
      { ret := env.doRequestRet, reqPuts := 0, allocFs := false, rootIputs := 0,
        mntIputs := 0, mntAllocated := false, pinInc := 0 }
    else
      if env.replyResult != 0 then openRootOut env.replyResult
      else if env.traceNr = 0 then openRootOut (-22)
      else
        if env.sbRootExists = false then
          if env.getInodeRet < 0 then openRootOut env.getInodeRet
          else if env.dAllocRootOk = false then openRootOut2 true false (-12)
          else openRootAfterRoot env true
        else openRootAfterRoot env false

/-- The two operations on the process-wide client counter:
`get_client_counter` (on `ceph_create_client`, including the acquire half
of a creation-failure rollback) and `put_client_counter` (on
`ceph_destroy_client` or on the rollback's `fail:` path).  The spinlock
serialises them, so an interleaving is a sequence. -/
inductive CounterOp where
  | acquire
  | release
  deriving Repr, DecidableEq

/-- The shared state guarded by `ceph_client_spinlock`: `ceph_num_clients`
(a C `int`, hence `Int` here so that going negative is expressible) and
the number of `ceph_workqueue_init` / `ceph_workqueue_shutdown` calls. -/
structure CounterState where
  count : Int
  inits : Nat
  shutdowns : Nat
  deriving Repr, DecidableEq

/-- `get_client_counter`: under the lock, if the count is zero run
`ceph_workqueue_init`, then increment. -/
def get_client_counter (s : CounterState) : CounterState :=
  let s1 := if s.count = 0 then { s with inits := s.inits + 1 } else s
  { s1 with count := s1.count + 1 }

/-- `put_client_counter`: under the lock, decrement, and if the count is
now zero run `ceph_workqueue_shutdown`. -/
def put_client_counter (s : CounterState) : CounterState :=
  let s1 : CounterState := { s with count := s.count - 1 }
  if s1.count = 0 then { s1 with shutdowns := s1.shutdowns + 1 } else s1

/-- One serialised counter operation. -/
def counterStep (s : CounterState) : CounterOp → CounterState
  | .acquire => get_client_counter s
  | .release => put_client_counter s

/-- Run a serialised interleaving of counter operations from the initial
state (`ceph_num_clients = 0`, no init or shutdown has run). -/
def runCounter (ops : List CounterOp) : CounterState :=
  ops.foldl counterStep { count := 0, inits := 0, shutdowns := 0 }

/-- Number of `get_client_counter` calls in an interleaving. -/
def acqCount (ops : List CounterOp) : Nat :=
  (ops.filter (fun o => o == CounterOp.acquire)).length

/-- Number of `put_client_counter` calls in an interleaving. -/
def relCount (ops : List CounterOp) : Nat :=
  (ops.filter (fun o => o == CounterOp.release)).length

/-- The counter traffic of one `ceph_create_client` call: `get` on entry,
and on the `fail:` rollback path also the matching `put`. -/
def ceph_create_client_counter_ops (creationFails : Bool) : List CounterOp :=
  if creationFails then [.acquire, .release] else [.acquire]

/-- The counter traffic of one `ceph_destroy_client` call. -/
def ceph_destroy_client_counter_ops : List CounterOp := [.release]

/-- A dispatch environment whose monmap decoder always succeeds with an
epoch-1 map and whose map handlers keep the previous presence. -/
def envDecode1 : DispatchEnv :=
  { monmap_decode := fun _ => some { epoch := 1, payload := [] }
    mdsc_handle_map := fun b _ => b
    osdc_handle_map := fun b _ => b }

/-- A dispatch environment whose monmap decoder always fails (`IS_ERR`). -/
def envDecodeFail : DispatchEnv :=
  { monmap_decode := fun _ => none
    mdsc_handle_map := fun b _ => b
    osdc_handle_map := fun b _ => b }

/-- A monitor-map announcement addressed to client number 42. -/
def msgMonW : CephMsg := { type := .mon_map, front := [], dstName := (8, 42) }

/-- A message whose type tag matches no case of the dispatch switch. -/
def msgUnknownW : CephMsg := { type := .other 999, front := [], dstName := (0, 0) }

/-- A mount environment in which readiness never arrives: every read of
`client->mounting` yields 0, the wait is never interrupted, message
allocation never fails, and every random byte is 1. -/
def mountEnvW : MountEnv :=
  { randByte := fun _ => 1
    waitInterrupted := fun _ => false
    msgNewErr := fun _ => none
    mountingRead := fun _ => 0 }

/-- An `open_root_inode` run in which `ceph_mdsc_do_request` fails with
`-EIO` and everything else would have succeeded. -/
def openEnvRpcFail : OpenEnv :=
  { createReqErr := none, doRequestRet := -5, replyResult := 0, traceNr := 1,
    sbRootExists := false, getInodeRet := 0, dAllocRootOk := true,
    fillTraceRet := 0, fillTraceMnt := true, fillTraceRootSet := true,
    addCapErr := none }

/-- An `open_root_inode` run with a reused (pre-existing) root entry in
which `ceph_add_cap` fails with `-EACCES` after the trace was decoded. -/
def openEnvCapFail : OpenEnv :=
  { createReqErr := none, doRequestRet := 0, replyResult := 0, traceNr := 1,
    sbRootExists := true, getInodeRet := 0, dAllocRootOk := true,
    fillTraceRet := 0, fillTraceMnt := true, fillTraceRootSet := true,
    addCapErr := some (-13) }

/-- An `open_root_inode` run whose reply reports success but carries an
empty trace. -/
def openEnvEmptyTrace : OpenEnv :=
  { createReqErr := none, doRequestRet := 0, replyResult := 0, traceNr := 0,
    sbRootExists := false, getInodeRet := 0, dAllocRootOk := true,
    fillTraceRet := 0, fillTraceMnt := true, fillTraceRootSet := true,
    addCapErr := none }

theorem got_first_map_mounting (c : ClientState) (num : Nat) :
    (got_first_map c num).mounting = set_bit num c.mounting := by
  simp only [got_first_map]
  split <;> rfl

theorem got_first_map_monmap (c : ClientState) (num : Nat) :
    (got_first_map c num).monmap = c.monmap := by
  simp only [got_first_map]
  split <;> rfl

theorem got_first_map_mds (c : ClientState) (num : Nat) :
    (got_first_map c num).mdsmapPresent = c.mdsmapPresent := by
  simp only [got_first_map]
  split <;> rfl

theorem got_first_map_osd (c : ClientState) (num : Nat) :
    (got_first_map c num).osdmapPresent = c.osdmapPresent := by
  simp only [got_first_map]
  split <;> rfl

/-- C5: for every inbound message, dispatch releases the message's
transport-owned resource exactly once regardless of which handler ran or
whether the type tag was recognized, and a message with an unrecognized
type tag raises no error to the caller and leaves the client state
untouched (the unknown type is absorbed as a soft condition). -/
theorem dispatch_releases_msg_once (env : DispatchEnv) (c : ClientState)
    (msg : CephMsg) :
    (ceph_dispatch env c msg).2 = 1
    ∧ (∀ tag, msg.type = CephMsgType.other tag → (ceph_dispatch env c msg).1 = c) := by
  refine ⟨rfl, ?_⟩
  intro tag h
  simp [ceph_dispatch, h]

/-- Witness for C5: dispatching a message with the unrecognized tag 999
releases it exactly once and changes nothing. -/
theorem dispatch_releases_msg_once_witness :
    (ceph_dispatch envDecode1 initClient msgUnknownW).2 = 1
    ∧ (ceph_dispatch envDecode1 initClient msgUnknownW).1 = initClient :=
  ⟨(dispatch_releases_msg_once envDecode1 initClient msgUnknownW).1,
   (dispatch_releases_msg_once envDecode1 initClient msgUnknownW).2 999 rfl⟩

/-- C10: if decoding a monitor-map announcement fails, handling the
message leaves the client's state unchanged — the stored monitor map and
its epoch, the identity `whoami`, the transport self-identity and the
monitor readiness bit all keep their prior values, and `got_first_map`
is not invoked. -/
theorem monmap_decode_failure_leaves_state (env : DispatchEnv) (c : ClientState)
    (msg : CephMsg) (htype : msg.type = CephMsgType.mon_map)
    (hdec : env.monmap_decode msg.front = none) :
    (ceph_dispatch env c msg).1 = c := by
  simp only [ceph_dispatch, htype, handle_monmap, hdec]
  cases h : c.monmap.epoch <;> simp [h]

/-- Witness for C10: a failed decode of the very first monitor map leaves
the fresh client exactly as it was (no identity, no readiness bit). -/
theorem monmap_decode_failure_leaves_state_witness :
    (ceph_dispatch envDecodeFail initClient msgMonW).1 = initClient :=
  monmap_decode_failure_leaves_state envDecodeFail initClient msgMonW rfl rfl

/-- C1: for each subsystem kind, processing a map announcement sets that
subsystem's readiness bit exactly when the local map state was absent
(epoch 0 / NULL) before handling and present after handling; when that
edge is missing the readiness logic is not invoked (mounting and the
completion count are unchanged), and in particular an announcement for an
already-present subsystem never re-triggers it. -/
theorem dispatch_readiness_edge (env : DispatchEnv) (c : ClientState)
    (msg : CephMsg) (k : Fin 3) (htype : msg.type = mapMsgType k) :
    ((ceph_dispatch env c msg).1.mounting
      = if mapPresent c k = false ∧ mapPresent (ceph_dispatch env c msg).1 k = true
        then set_bit k.val c.mounting else c.mounting)
    ∧ (¬ (mapPresent c k = false ∧ mapPresent (ceph_dispatch env c msg).1 k = true)
      → (ceph_dispatch env c msg).1.completions = c.completions)
    ∧ (mapPresent c k = true
      → (ceph_dispatch env c msg).1.mounting = c.mounting
        ∧ (ceph_dispatch env c msg).1.completions = c.completions) := by
  fin_cases k
  · simp only [mapMsgType] at htype
    simp only [ceph_dispatch, htype, mapPresent, handle_monmap]
    rcases hdec : env.monmap_decode msg.front with _ | nm
    · cases h : c.monmap.epoch <;> simp [h, hdec]
    · cases h : c.monmap.epoch <;>
        cases hnm : nm.epoch <;>
          simp [h, hdec, hnm, got_first_map, set_bit,
                apply_ite ClientState.mounting, apply_ite ClientState.completions,
                apply_ite ClientState.monmap, apply_ite MonMap.epoch, ite_self]
  · simp only [mapMsgType] at htype
    simp only [ceph_dispatch, htype, mapPresent]
    cases h : c.mdsmapPresent
    · cases hb : env.mdsc_handle_map false msg <;>
        simp [h, hb, got_first_map, set_bit,
              apply_ite ClientState.mounting, apply_ite ClientState.completions,
              apply_ite ClientState.mdsmapPresent, ite_self]
    · simp [h]
  · simp only [mapMsgType] at htype
    simp only [ceph_dispatch, htype, mapPresent]
    cases h : c.osdmapPresent
    · cases hb : env.osdc_handle_map false msg <;>
        simp [h, hb, got_first_map, set_bit,
              apply_ite ClientState.mounting, apply_ite ClientState.completions,
              apply_ite ClientState.osdmapPresent, ite_self]
    · simp [h]

/-- Witness for C1: the first successfully decoded monitor map (epoch 0
to epoch 1) sets readiness bit 0 on a fresh client. -/
theorem dispatch_readiness_edge_witness :
    (ceph_dispatch envDecode1 initClient msgMonW).1.mounting
      = set_bit 0 initClient.mounting := by
  have h := (dispatch_readiness_edge envDecode1 initClient msgMonW 0 rfl).1
  rw [h]
  decide

/-- Nodup sequences over {0,1,2} fire the completion exactly when the
third distinct bit arrives: after any such sequence the completion count
is 1 when all three subsystems have reported, 0 otherwise. -/
theorem runFirstMaps_completions (p : List Nat) (h3 : ∀ n ∈ p, n < 3)
    (hnd : p.Nodup) :
    (runFirstMaps initClient p).completions = if p.length = 3 then 1 else 0 := by
  rcases p with _ | ⟨a, _ | ⟨b, _ | ⟨c, _ | ⟨d, t⟩⟩⟩⟩
  · decide
  · have ha := h3 a (by simp)
    interval_cases a <;> decide
  · have ha := h3 a (by simp)
    have hb := h3 b (by simp)
    revert hnd
    interval_cases a <;> interval_cases b <;> decide
  · have ha := h3 a (by simp)
    have hb := h3 b (by simp)
    have hc := h3 c (by simp)
    revert hnd
    interval_cases a <;> interval_cases b <;> interval_cases c <;> decide
  · have ha := h3 a (by simp)
    have hb := h3 b (by simp)
    have hc := h3 c (by simp)
    have hd := h3 d (by simp)
    rw [List.nodup_cons] at hnd
    obtain ⟨ha1, hnd⟩ := hnd
    rw [List.nodup_cons] at hnd
    obtain ⟨hb1, hnd⟩ := hnd
    rw [List.nodup_cons] at hnd
    obtain ⟨hc1, hnd⟩ := hnd
    have hab : a ≠ b := fun hx => ha1 (by simp [hx])
    have hac : a ≠ c := fun hx => ha1 (by simp [hx])
    have had : a ≠ d := fun hx => ha1 (by simp [hx])
    have hbc : b ≠ c := fun hx => hb1 (by simp [hx])
    have hbd : b ≠ d := fun hx => hb1 (by simp [hx])
    have hcd : c ≠ d := fun hx => hc1 (by simp [hx])
    omega

/-- C2: for every sequence of `got_first_map` calls in which each
subsystem number in {0,1,2} appears at most once, starting from a fresh
client, the completion is fired exactly on the call that sets the last
missing readiness bit and on no other call: after any prefix of the
sequence the completion count is 1 if all three bits are set
(mounting = 7), 0 otherwise. -/
theorem mount_completion_fires_once (nums : List Nat)
    (h3 : ∀ n ∈ nums, n < 3) (hnd : nums.Nodup)
    (p : List Nat) (hp : p <+: nums) :
    (runFirstMaps initClient p).completions = if p.length = 3 then 1 else 0 :=
  runFirstMaps_completions p (fun n hn => h3 n (hp.sublist.subset hn))
    (hnd.sublist hp.sublist)

/-- Witness for C2: with announcement order monitor, metadata, storage,
no completion has fired after the first two calls and exactly one has
fired after the third. -/
theorem mount_completion_fires_once_witness :
    (runFirstMaps initClient [0, 1]).completions = 0
    ∧ (runFirstMaps initClient [0, 1, 2]).completions = 1 := by
  constructor
  · have h := mount_completion_fires_once [0, 1, 2] (by decide) (by decide)
      [0, 1] ⟨[2], rfl⟩
    simpa using h
  · have h := mount_completion_fires_once [0, 1, 2] (by decide) (by decide)
      [0, 1, 2] ⟨[], rfl⟩
    simpa using h

/-- When readiness never arrives, allocation never fails and the wait is
never interrupted, the attempt loop with budget `a + 1` starting at
attempt `i` sends to the monitors selected at attempts i, i+1, ...,
i + a, and then returns `-EIO`. -/
theorem mount_loop_never_ready (env : MountEnv) (num_mon : Nat)
    (hmnt : ∀ t, env.mountingRead t < 7)
    (hintr : ∀ i, env.waitInterrupted i = false)
    (halloc : ∀ i, env.msgNewErr i = none) :
    ∀ (a i : Nat) (sent : List Int),
      ceph_mount_loop env num_mon (a + 1) i sent
        = (sent ++ (List.range' i (a + 1)).map (fun j => cMod (env.randByte j) num_mon),
           MountOutcome.errRet (-5)) := by
  intro a
  induction a with
  | zero =>
    intro i sent
    unfold ceph_mount_loop
    have h7 : ¬ env.mountingRead (2 * i + 1) = 7 := by
      have := hmnt (2 * i + 1); omega
    rw [if_pos (hmnt (2 * i)), halloc i]
    simp [hintr i, h7, List.range']
  | succ a ih =>
    intro i sent
    unfold ceph_mount_loop
    have h7 : ¬ env.mountingRead (2 * i + 1) = 7 := by
      have := hmnt (2 * i + 1); omega
    rw [if_pos (hmnt (2 * i)), halloc i]
    simp only [hintr i, Bool.false_eq_true, if_false, if_neg h7]
    rw [ih (i + 1)]
    simp [List.range'_succ]

/-- C3: for every attempt budget N >= 1, if readiness is never achieved
(every read of `mounting` stays below 7), the wait is never interrupted
and message allocation never fails, `ceph_mount` sends exactly N join
requests — one per iteration, each addressed to the monitor selected from
that iteration's random byte — and then fails with `-EIO` (Timeout),
never after fewer sends. -/
theorem mount_timeout_exact_sends (env : MountEnv) (num_mon N : Nat)
    (hN : 1 ≤ N)
    (hmnt : ∀ t, env.mountingRead t < 7)
    (hintr : ∀ i, env.waitInterrupted i = false)
    (halloc : ∀ i, env.msgNewErr i = none) :
    (ceph_mount env num_mon N).1
        = (List.range N).map (fun i => cMod (env.randByte i) num_mon)
    ∧ (ceph_mount env num_mon N).1.length = N
    ∧ (ceph_mount env num_mon N).2 = MountOutcome.errRet (-5) := by
  obtain ⟨a, rfl⟩ : ∃ a, N = a + 1 := ⟨N - 1, by omega⟩
  have h := mount_loop_never_ready env num_mon hmnt hintr halloc a 0 []
  unfold ceph_mount
  rw [h]
  refine ⟨by simp [List.range_eq_range'], ?_, rfl⟩
  simp

/-- Witness for C3: with three monitors, budget 2 and readiness never
arriving, exactly two sends happen (both to monitor 1) and the result is
`-EIO`. -/
theorem mount_timeout_exact_sends_witness :
    (ceph_mount mountEnvW 3 2).1 = [1, 1]
    ∧ (ceph_mount mountEnvW 3 2).2 = MountOutcome.errRet (-5) := by
  have h := mount_timeout_exact_sends mountEnvW 3 2 (by omega)
    (fun t => by simp [mountEnvW]) (fun i => rfl) (fun i => rfl)
  refine ⟨?_, h.2.2⟩
  rw [h.1]
  decide

/-- C4 (failing evaluation): when `ceph_mdsc_do_request` fails with -5,
`open_root_inode` propagates the code unchanged but performs zero
`ceph_mdsc_put_request` calls — the direct `return err` skips the `out:`
epilogue, so the request it created is not released on this failure
path. -/
theorem open_root_rpc_failure_leaks_request :
    (open_root_inode openEnvRpcFail).ret = -5
    ∧ (open_root_inode openEnvRpcFail).reqPuts = 0 := by
  decide

/-- C8 (failing evaluation): the monitor selection `which = r % num_mon`
on a signed random byte is not confined to [0, num_mon): byte 0xFF gives
index -1 with three monitors; and even the in-range outcomes over all 256
byte values are not equally likely (86 bytes map to index 0, 85 to
index 1). -/
theorem pickMonitor_not_uniform :
    pickMonitor 255 3 = -1
    ∧ pickMonitor 255 3 < 0
    ∧ ((List.range 256).filter (fun b => pickMonitor b 3 = 0)).length
        ≠ ((List.range 256).filter (fun b => pickMonitor b 3 = 1)).length := by
  decide

/-- C6: on any failure of `open_root_inode` after the reply was received,
the filesystem root inode is released if and only if it was freshly
allocated in this call (the `alloc_fs` flag); a reused pre-existing root
entry is never released; and whenever the mount-path inode had been
obtained, it is released on the failure path. -/
theorem open_root_cleanup_discipline (env : OpenEnv)
    (hreq : env.createReqErr = none) (hrpc : 0 ≤ env.doRequestRet)
    (hfail : (open_root_inode env).ret ≠ 0) :
    ((open_root_inode env).allocFs = true → (open_root_inode env).rootIputs = 1)
    ∧ ((open_root_inode env).allocFs = false → (open_root_inode env).rootIputs = 0)
    ∧ (env.sbRootExists = true → (open_root_inode env).rootIputs = 0)
    ∧ ((open_root_inode env).mntAllocated = true
        → (open_root_inode env).mntIputs = 1) := by
  obtain ⟨cr, dr, rr, tn, sbr, gir, dar, ftr, ftm, ftrs, ace⟩ := env
  subst hreq
  have hd : ¬ dr < 0 := by simpa using hrpc
  clear hrpc
  revert hfail
  rcases ace with _ | e <;>
    simp only [open_root_inode, openRootAfterRoot, openRootOut2, openRootOut,
      if_neg hd] <;>
    split_ifs <;> simp_all

/-- Witness for C6: with a reused root entry and a capability-binding
failure, the reused root is not released and the mount-path inode is. -/
theorem open_root_cleanup_discipline_witness :
    (open_root_inode openEnvCapFail).rootIputs = 0
    ∧ (open_root_inode openEnvCapFail).mntIputs = 1 := by
  have h := open_root_cleanup_discipline openEnvCapFail rfl (by decide) (by decide)
  exact ⟨h.2.2.1 rfl, h.2.2.2 rfl⟩

/-- C7: if the OPEN reply's result code is zero but its trace holds zero
entries, `open_root_inode` fails with `-EINVAL`; conversely every reply
it accepts as successful carries at least one traced entry. -/
theorem open_root_empty_trace_invalid (env : OpenEnv)
    (hreq : env.createReqErr = none) (hrpc : 0 ≤ env.doRequestRet) :
    (env.replyResult = 0 → env.traceNr = 0 → (open_root_inode env).ret = -22)
    ∧ ((open_root_inode env).ret = 0 → 1 ≤ env.traceNr) := by
  obtain ⟨cr, dr, rr, tn, sbr, gir, dar, ftr, ftm, ftrs, ace⟩ := env
  subst hreq
  have hd : ¬ dr < 0 := by simpa using hrpc
  clear hrpc
  rcases ace with _ | e <;>
    simp only [open_root_inode, openRootAfterRoot, openRootOut2, openRootOut,
      if_neg hd] <;>
    split_ifs <;> simp_all <;> omega

/-- Witness for C7: a success reply with an empty trace yields `-EINVAL`. -/
theorem open_root_empty_trace_invalid_witness :
    (open_root_inode openEnvEmptyTrace).ret = -22 :=
  (open_root_empty_trace_invalid openEnvEmptyTrace rfl (by decide)).1 rfl rfl

theorem runCounter_append_singleton (l : List CounterOp) (op : CounterOp) :
    runCounter (l ++ [op]) = counterStep (runCounter l) op := by
  simp [runCounter, List.foldl_append]

theorem counterStep_count (s : CounterState) (op : CounterOp) :
    (counterStep s op).count
      = if op = CounterOp.acquire then s.count + 1 else s.count - 1 := by
  cases op <;>
    simp [counterStep, get_client_counter, put_client_counter,
      apply_ite CounterState.count] <;>
    split <;> simp

theorem runCounter_count (l : List CounterOp) :
    (runCounter l).count = (acqCount l : Int) - (relCount l : Int) := by
  induction l using List.reverseRecOn with
  | nil => rfl
  | append_singleton l op ih =>
    rw [runCounter_append_singleton, counterStep_count, ih]
    cases op <;>
      simp [acqCount, relCount, List.filter_append] <;> push_cast <;> ring

/-- C9: for every serialised interleaving of counter acquires (aggregate
creation, including the rollback pair of a failed creation) and releases
(aggregate destruction) in which no prefix releases more than it
acquired: the count always equals acquires minus releases and never goes
negative, the worker-queue initialization runs exactly on the steps that
take the count from 0 to 1, and the shutdown runs exactly on the steps
that take it from 1 to 0 — so teardown never runs while an aggregate is
still counted. -/
theorem client_counter_init_shutdown_edges (ops : List CounterOp)
    (hbal : ∀ n, relCount (ops.take n) ≤ acqCount (ops.take n)) :
    (∀ l : List CounterOp,
        (runCounter l).count = (acqCount l : Int) - (relCount l : Int))
    ∧ (∀ n, 0 ≤ (runCounter (ops.take n)).count)
    ∧ (∀ (l : List CounterOp) (op : CounterOp),
        (runCounter (l ++ [op])).inits
          = (runCounter l).inits
            + (if op = CounterOp.acquire ∧ (runCounter l).count = 0 then 1 else 0))
    ∧ (∀ (l : List CounterOp) (op : CounterOp),
        (runCounter (l ++ [op])).shutdowns
          = (runCounter l).shutdowns
            + (if op = CounterOp.release ∧ (runCounter l).count = 1 then 1 else 0)) := by
  refine ⟨runCounter_count, ?_, ?_, ?_⟩
  · intro n
    rw [runCounter_count]
    have := hbal n
    omega
  · intro l op
    rw [runCounter_append_singleton]
    cases op <;>
      simp [counterStep, get_client_counter, put_client_counter,
        apply_ite CounterState.inits] <;>
      split <;> simp_all
  · intro l op
    rw [runCounter_append_singleton]
    cases op <;>
      simp [counterStep, get_client_counter, put_client_counter,
        apply_ite CounterState.shutdowns, sub_eq_zero] <;>
      split <;> simp_all

/-- Witness for C9: two creations followed by two destructions keep the
count non-negative, and the destruction that takes the count from 1 to 0
runs the shutdown exactly once. -/
theorem client_counter_init_shutdown_edges_witness :
    0 ≤ (runCounter ([CounterOp.acquire, CounterOp.acquire, CounterOp.release,
        CounterOp.release].take 3)).count
    ∧ (runCounter ([CounterOp.acquire] ++ [CounterOp.release])).shutdowns
        = (runCounter [CounterOp.acquire]).shutdowns + 1 := by
  have h := client_counter_init_shutdown_edges
    [CounterOp.acquire, CounterOp.acquire, CounterOp.release, CounterOp.release]
    (by
      intro n
      rcases Nat.lt_or_ge n 5 with hn | hn
      · interval_cases n <;> decide
      · rw [List.take_of_length_le (by simp; omega)]
        decide)
  refine ⟨h.2.1 3, ?_⟩
  rw [h.2.2.2 [CounterOp.acquire] CounterOp.release]
  decide
